import Mathlib

/-!
# Verification of the Lake Formation / DataZone permission-orchestration helpers

Shallow embedding of the permission-model helper functions of the
data-solutions-framework repository:

* `registerS3Location` — registers an S3 location in Lake Formation, creating a
  dedicated data-access role, granting it read/write on the bucket+prefix and
  adding an explicit dependency edge from the location registration to the grant;
* `grantLfAdminRole` — two variants (one emitting a `CROSS_ACCOUNT_VERSION`
  parameter, one not) appending a principal to the Lake Formation admin list;
* `removeIamAllowedPrincipal` — a custom resource revoking the legacy
  `IAM_ALLOWED_PRINCIPALS` permissions on a database;
* `grantDataLakeLocation` — grants `DATA_LOCATION_ACCESS` on a location;
* `authorizerEnvironmentWorkflowSetup` — the environment side of the
  cross-account authorizer workflow.

Stateless CDK constructs are embedded as plain records of their synthesized
properties; construct scopes are dropped and the enclosing `Stack` is passed
explicitly where its attributes (partition, region, account) are consumed.
-/

namespace DSF

/-- The permission model enum (`PermissionModel` from `src/utils`). -/
inductive PermissionModel where
  | IAM
  | HYBRID
  | LAKE_FORMATION
deriving DecidableEq, Repr

/-- The attributes of the enclosing CDK stack that the helpers read. -/
structure Stack where
  partition : String
  region : String
  account : String
deriving DecidableEq, Repr

/-- An S3 bucket reference (`IBucket`), identified by its ARN. -/
structure IBucket where
  bucketArn : String
deriving DecidableEq, Repr

/-- CDK `IBucket.arnForObjects`: the ARN of the objects under a key pattern. -/
def IBucket.arnForObjects (b : IBucket) (keyPattern : String) : String :=
  b.bucketArn ++ "/" ++ keyPattern

/-- An IAM role, as created or referenced by the helpers. -/
structure Role where
  assumedBy : String
  roleArn : String
deriving DecidableEq, Repr

/-- The synthesized effect of `IBucket.grantReadWrite(identity, objectsKeyPattern)`:
a read/write grant to `grantee` on the bucket ARN and the objects ARN under the
key pattern. -/
structure BucketGrant where
  grantee : String
  readWrite : Bool
  resources : List String
deriving DecidableEq, Repr

/-- CDK `IBucket.grantReadWrite`: read and write permissions on the bucket and
the objects matching the key pattern. -/
def IBucket.grantReadWrite (b : IBucket) (identity : Role) (objectsKeyPattern : String) :
    BucketGrant :=
  { grantee := identity.roleArn
    readWrite := true
    resources := [b.bucketArn, b.arnForObjects objectsKeyPattern] }

/-- The `aws-lakeformation` `CfnResource` (data lake location registration). -/
structure CfnResource where
  hybridAccessEnabled : Bool
  useServiceLinkedRole : Bool
  roleArn : String
  resourceArn : String
deriving DecidableEq, Repr

/-- The result of `registerS3Location`: the created role, the bucket grant, the
location registration, and the dependency edges added between the construct
nodes (`dependent id, dependency id` pairs, from `node.addDependency`). -/
structure RegisterS3LocationResult where
  lfDataAccessRole : Role
  grantRead : BucketGrant
  dataLakeLocation : CfnResource
  deps : List (String × String)
deriving DecidableEq, Repr

/-- The construct-node identifier of the bucket read/write grant created inside
`registerS3Location` with construct id `id`. -/
def grantReadNodeId (id : String) : String := id ++ "GrantRead"

/-- The construct-node identifier of the data lake location registration created
inside `registerS3Location` with construct id `id`. -/
def dataLakeLocationNodeId (id : String) : String := id ++ "DataLakeLocation"

/-- A synthetic ARN for an IAM role created under a construct id. -/
def roleArnOf (stack : Stack) (id : String) : String :=
  "arn:" ++ stack.partition ++ ":iam::" ++ stack.account ++ ":role/" ++ id

/-- `registerS3Location(scope, id, locationBucket, locationPrefix, accessMode?)`:
creates the Lake Formation data-access role (assumed by
`lakeformation.amazonaws.com`), grants it read/write on the bucket under the
location key pattern, registers the location (`hybridAccessEnabled` exactly when
`accessMode === PermissionModel.HYBRID`, `useServiceLinkedRole: false`,
`resourceArn = locationBucket.arnForObjects(locationPrefix)`), and adds an
explicit dependency of the location node on the grant. -/
def registerS3Location (stack : Stack) (id : String) (locationBucket : IBucket)
    (locationKey : String) (accessMode : Option PermissionModel) :
    RegisterS3LocationResult :=
  let lfDataAccessRole : Role :=
    { assumedBy := "lakeformation.amazonaws.com"
      roleArn := roleArnOf stack (id ++ "DataAccessRole") }
  let grantRead := locationBucket.grantReadWrite lfDataAccessRole locationKey
  let dataLakeLocation : CfnResource :=
    { hybridAccessEnabled := if accessMode = some PermissionModel.HYBRID then true else false
      useServiceLinkedRole := false
      roleArn := lfDataAccessRole.roleArn
      resourceArn := locationBucket.arnForObjects locationKey }
  { lfDataAccessRole := lfDataAccessRole
    grantRead := grantRead
    dataLakeLocation := dataLakeLocation
    deps := [(dataLakeLocationNodeId id, grantReadNodeId id)] }

/-- An execution order respects a dependency graph when every dependency node
appears strictly before its dependent node in the order (`List.indexOf` is the
position of the first occurrence, or the length of the list when absent). -/
def respectsOrder (order : List String) (deps : List (String × String)) : Prop :=
  ∀ d ∈ deps, order.indexOf d.2 < order.indexOf d.1

instance (order : List String) (deps : List (String × String)) :
    Decidable (respectsOrder order deps) := by
  unfold respectsOrder; infer_instance

/-- The polymorphic Lake Formation principal accepted by `grantLfAdminRole`:
an IAM role, an IAM user, or a SAML provider together with a mapped name
(`IRole | IUser | [ISamlProvider, string]`). -/
inductive LfPrincipal where
  | role (roleArn : String)
  | user (userArn : String)
  | saml (samlProviderArn : String) (name : String)
deriving DecidableEq, Repr

/-- An entry of the `admins` list of `CfnDataLakeSettings`. -/
structure DataLakePrincipal where
  dataLakePrincipalIdentifier : String
deriving DecidableEq, Repr

/-- The `aws-lakeformation` `CfnDataLakeSettings` properties emitted by the
helpers (the optional `parameters` map carries numeric values). -/
structure CfnDataLakeSettings where
  admins : List DataLakePrincipal
  mutationType : String
  parameters : Option (List (String × Nat))
deriving DecidableEq, Repr

namespace LfAdminV1

/-- First definition of `grantLfAdminRole` in the sources (the one with no
`parameters` field): extract the principal ARN (role ARN for a role, user ARN
for a user, SAML provider ARN concatenated with the mapped name for a SAML
identity) and emit a single-admin `CfnDataLakeSettings` with mutation type
`APPEND`. -/
def grantLfAdminRole (principal : LfPrincipal) : CfnDataLakeSettings :=
  let principalArn : String :=
    match principal with
    | .role roleArn => roleArn
    | .user userArn => userArn
    | .saml samlProviderArn name => samlProviderArn ++ name
  { admins := [{ dataLakePrincipalIdentifier := principalArn }]
    mutationType := "APPEND"
    parameters := none }

end LfAdminV1

namespace LfAdminV2

/-- Second definition of `grantLfAdminRole` in the sources: identical principal
resolution and admin list, plus a `parameters` field setting
`CROSS_ACCOUNT_VERSION` to `4`. -/
def grantLfAdminRole (principal : LfPrincipal) : CfnDataLakeSettings :=
  let principalArn : String :=
    match principal with
    | .role roleArn => roleArn
    | .user userArn => userArn
    | .saml samlProviderArn name => samlProviderArn ++ name
  { admins := [{ dataLakePrincipalIdentifier := principalArn }]
    mutationType := "APPEND"
    parameters := some [("CROSS_ACCOUNT_VERSION", 4)] }

end LfAdminV2

/-- The canonical identifier the spec assigns to each principal variant: role
ARN for roles, user ARN for users, SAML provider ARN concatenated with the
mapped name for SAML identities. -/
def canonicalIdentifier : LfPrincipal → String
  | .role roleArn => roleArn
  | .user userArn => userArn
  | .saml samlProviderArn name => samlProviderArn ++ name

/-- The SDK call parameters of the `onCreate` call of the custom resource
declared by `removeIamAllowedPrincipal`. -/
structure SdkCall where
  service : String
  action : String
  permissions : List String
  principalIdentifier : String
  resourceDatabaseName : String
  physicalResourceId : String
deriving DecidableEq, Repr

/-- A policy statement of the custom resource's execution policy. -/
structure PolicyStatement where
  actions : List String
  allow : Bool
  resources : List String
deriving DecidableEq, Repr

/-- The CDK removal policy. -/
inductive RemovalPolicy where
  | DESTROY
  | RETAIN
deriving DecidableEq, Repr

/-- The `AwsCustomResource` declared by `removeIamAllowedPrincipal`. -/
structure AwsCustomResource where
  removalPolicy : RemovalPolicy
  role : Role
  onCreate : SdkCall
  policy : List PolicyStatement
  logRetentionDays : Nat
  timeoutSeconds : Nat
deriving DecidableEq, Repr

/-- `removeIamAllowedPrincipal(scope, id, database, execRole, removalPolicy)`:
declares a custom resource, executed under `execRole`, whose `onCreate` call is
LakeFormation `RevokePermissions` revoking `['ALL']` from the synthetic
`IAM_ALLOWED_PRINCIPALS` principal on the single named database. -/
def removeIamAllowedPrincipal (stack : Stack) (database : String) (execRole : Role)
    (removalPolicy : RemovalPolicy) : AwsCustomResource :=
  { removalPolicy := removalPolicy
    role := execRole
    onCreate :=
      { service := "LakeFormation"
        action := "RevokePermissions"
        permissions := ["ALL"]
        principalIdentifier := "IAM_ALLOWED_PRINCIPALS"
        resourceDatabaseName := database
        physicalResourceId := database }
    policy :=
      [ { actions := ["lakeformation:RevokePermissions"]
          allow := true
          resources :=
            ["arn:" ++ stack.partition ++ ":lakeformation:" ++ stack.region ++ ":"
              ++ stack.account ++ ":catalog:" ++ stack.account] }
      , { actions := ["glue:GetDatabase"]
          allow := true
          resources :=
            ["arn:" ++ stack.partition ++ ":glue:" ++ stack.region ++ ":"
              ++ stack.account ++ ":database/" ++ database,
             "arn:" ++ stack.partition ++ ":glue:" ++ stack.region ++ ":"
              ++ stack.account ++ ":catalog"] } ]
    logRetentionDays := 7
    timeoutSeconds := 60 }

/-- The `aws-lakeformation` `CfnPermissions` properties emitted by
`grantDataLakeLocation`. -/
structure CfnPermissions where
  permissions : List String
  permissionsWithGrantOption : List String
  principalIdentifier : String
  catalogId : String
  s3Resource : String
deriving DecidableEq, Repr

/-- `grantDataLakeLocation(scope, id, location, principal)`: grants
`DATA_LOCATION_ACCESS` (with no grant option) on the data location to the
principal role. -/
def grantDataLakeLocation (stack : Stack) (location : String) (principal : Role) :
    CfnPermissions :=
  { permissions := ["DATA_LOCATION_ACCESS"]
    permissionsWithGrantOption := []
    principalIdentifier := principal.roleArn
    catalogId := stack.account
    s3Resource := location }

/-- A Lambda function reference (`IFunction`): its ARN and its (possibly
absent) execution role. -/
structure IFunctionT where
  functionArn : String
  role : Option Role
deriving DecidableEq, Repr

/-- An IAM grant as produced by `grantInvoke` / `grantAssumeRole`: an action
granted to a grantee principal on a resource. -/
structure Grant where
  grantee : String
  action : String
  resourceArn : String
deriving DecidableEq, Repr

/-- The result record of `authorizerEnvironmentWorkflowSetup`
(`AuthorizerEnvironmentWorflow`, sic). -/
structure AuthorizerEnvironmentWorflow where
  lambdaInvokeGrant : Grant
  assumeRoleGrant : Grant
deriving DecidableEq, Repr

/-- CDK `Arn.format` with the components `registerS3Location`'s sibling helper
supplies: partition and region are filled in from the stack, the account comes
from the caller (or the stack when absent). -/
def arnFormat (stack : Stack) (account : Option String) (service res resourceName : String) :
    String :=
  "arn:" ++ stack.partition ++ ":" ++ service ++ ":" ++ stack.region ++ ":"
    ++ account.getD stack.account ++ ":" ++ res ++ "/" ++ resourceName

/-- The ARN of the central authorizer's well-known role, constructed by
`authorizerEnvironmentWorkflowSetup` from the central account id and the role
name `{authorizerName}Role`. -/
def centralAuthorizerRoleArn (stack : Stack) (authorizerName : String)
    (centralAccount : Option String) : String :=
  arnFormat stack centralAccount "iam" "role" (authorizerName ++ "Role")

/-- `authorizerEnvironmentWorkflowSetup(scope, authorizerName, grantFunction,
centralAccount?)`: builds the central authorizer role reference from the
well-known ARN; if the grant function has no role it throws
(`grantFunction.role is undefined` — the spec's `MissingRoleError`), otherwise
it grants that role invoke on the function and assume-role on the function's
role, returning both grants. -/
def authorizerEnvironmentWorkflowSetup (stack : Stack) (authorizerName : String)
    (grantFunction : IFunctionT) (centralAccount : Option String) :
    Except String AuthorizerEnvironmentWorflow :=
  let roleRefArn := centralAuthorizerRoleArn stack authorizerName centralAccount
  match grantFunction.role with
  | none => .error "grantFunction.role is undefined"
  | some r =>
      let lambdaInvokeGrant : Grant :=
        { grantee := roleRefArn
          action := "lambda:InvokeFunction"
          resourceArn := grantFunction.functionArn }
      let assumeRoleGrant : Grant :=
        { grantee := roleRefArn
          action := "sts:AssumeRole"
          resourceArn := r.roleArn }
      .ok { lambdaInvokeGrant := lambdaInvokeGrant, assumeRoleGrant := assumeRoleGrant }

/-- The list of grants a successful setup establishes. -/
def AuthorizerEnvironmentWorflow.grants (w : AuthorizerEnvironmentWorflow) : List Grant :=
  [w.lambdaInvokeGrant, w.assumeRoleGrant]

/-- The flag triple the PermissionModel resolver returns (spec §4.1). -/
structure ResolvedFlags where
  registerHybrid : Bool
  requiresAdminGrant : Bool
  requiresLegacyRevoke : Bool
deriving DecidableEq, Repr

/-- Modelled from the spec: the `PermissionModel` resolver of §4.1 is not among
the sources under `src/` (only the `PermissionModel` enum import and its
consumers are); per the spec it is a pure decision table over the raw requested
model that fails with `InvalidPermissionModel` on an unrecognized value. -/
def resolvePermissionModel (raw : String) : Except String ResolvedFlags :=
  if raw = "IAM" then .ok ⟨false, false, false⟩
  else if raw = "HYBRID" then .ok ⟨true, true, true⟩
  else if raw = "LAKE_FORMATION" then .ok ⟨false, true, true⟩
  else .error "InvalidPermissionModel"

/-- Modelled from the spec: parsing a raw requested model into the
`PermissionModel` enum, failing with `InvalidPermissionModel` on an
unrecognized value (spec §4.1). -/
def parsePermissionModel (raw : String) : Except String PermissionModel :=
  if raw = "IAM" then .ok PermissionModel.IAM
  else if raw = "HYBRID" then .ok PermissionModel.HYBRID
  else if raw = "LAKE_FORMATION" then .ok PermissionModel.LAKE_FORMATION
  else .error "InvalidPermissionModel"

/-- Location registration driven by a raw requested model: resolves the model
first and only then registers (an operation consuming the resolver). -/
def registerS3LocationRaw (stack : Stack) (id : String) (locationBucket : IBucket)
    (locationKey : String) (raw : String) :
    Except String RegisterS3LocationResult :=
  (parsePermissionModel raw).map fun m =>
    registerS3Location stack id locationBucket locationKey (some m)

end DSF

namespace DSF

/-- **C1.** For every permission model passed to `registerS3Location`, the
registered data lake location is hybrid-access-enabled if and only if the model
is `HYBRID` (so `false` for `IAM`, `LAKE_FORMATION` and when no model is given),
and `useServiceLinkedRole` is always `false`. -/
theorem registerS3Location_hybrid_iff (stack : Stack) (id : String)
    (locationBucket : IBucket) (locationKey : String)
    (accessMode : Option PermissionModel) :
    ((registerS3Location stack id locationBucket locationKey accessMode).dataLakeLocation.hybridAccessEnabled
      = true ↔ accessMode = some PermissionModel.HYBRID)
    ∧ (registerS3Location stack id locationBucket locationKey accessMode).dataLakeLocation.useServiceLinkedRole
      = false := by
  refine ⟨?_, rfl⟩
  simp only [registerS3Location]
  by_cases h : accessMode = some PermissionModel.HYBRID <;> simp [h]

/-- **C2.** The resource graph produced by `registerS3Location` always contains
the explicit dependency edge from the data-lake-location registration node to
the bucket read/write grant node, so in every execution order that respects the
produced graph the registration step never runs before the grant. -/
theorem registerS3Location_location_after_grant (stack : Stack) (id : String)
    (locationBucket : IBucket) (locationKey : String)
    (accessMode : Option PermissionModel) :
    (dataLakeLocationNodeId id, grantReadNodeId id)
      ∈ (registerS3Location stack id locationBucket locationKey accessMode).deps
    ∧ ∀ order : List String,
        respectsOrder order (registerS3Location stack id locationBucket locationKey accessMode).deps →
        order.indexOf (grantReadNodeId id) < order.indexOf (dataLakeLocationNodeId id) := by
  constructor
  · simp [registerS3Location]
  · intro order h
    exact h (dataLakeLocationNodeId id, grantReadNodeId id) (by simp [registerS3Location])

/-- Witness for C2: a concrete execution order putting the grant first respects
the produced graph, and the theorem then places the grant before the location. -/
theorem registerS3Location_location_after_grant_witness :
    (List.indexOf (grantReadNodeId "Loc")
        ["LocGrantRead", "LocDataLakeLocation"]
      < List.indexOf (dataLakeLocationNodeId "Loc")
        ["LocGrantRead", "LocDataLakeLocation"]) :=
  (registerS3Location_location_after_grant
      ⟨"aws", "eu-west-1", "111122223333"⟩ "Loc" ⟨"arn:aws:s3:::bucket"⟩ "pre"
      (some PermissionModel.HYBRID)).2
    ["LocGrantRead", "LocDataLakeLocation"] (by decide)

/-- **C6.** `registerS3Location` creates a dedicated access role assumable by
`lakeformation.amazonaws.com`, grants that role read/write on exactly the given
bucket and its objects under the given key pattern (and nothing broader), and
registers the location with resource ARN equal to the bucket's object ARN under
that key pattern, bound to the created role. -/
theorem registerS3Location_role_grant_scope (stack : Stack) (id : String)
    (locationBucket : IBucket) (locationKey : String)
    (accessMode : Option PermissionModel) :
    let r := registerS3Location stack id locationBucket locationKey accessMode
    r.lfDataAccessRole.assumedBy = "lakeformation.amazonaws.com"
    ∧ r.grantRead.grantee = r.lfDataAccessRole.roleArn
    ∧ r.grantRead.readWrite = true
    ∧ r.grantRead.resources
        = [locationBucket.bucketArn, locationBucket.arnForObjects locationKey]
    ∧ r.dataLakeLocation.resourceArn = locationBucket.arnForObjects locationKey
    ∧ r.dataLakeLocation.roleArn = r.lfDataAccessRole.roleArn := by
  exact ⟨rfl, rfl, rfl, rfl, rfl, rfl⟩

/-- **C3.** For every principal role and every location (and every stack),
`grantDataLakeLocation` emits a permissions declaration whose permission set is
exactly `{DATA_LOCATION_ACCESS}` and whose grant-option permission set is empty;
the function takes no permission-set argument, so no caller-requested broader
set can change this. -/
theorem grantDataLakeLocation_permissions (stack : Stack) (location : String)
    (principal : Role) :
    (grantDataLakeLocation stack location principal).permissions
      = ["DATA_LOCATION_ACCESS"]
    ∧ (grantDataLakeLocation stack location principal).permissionsWithGrantOption = []
    ∧ (grantDataLakeLocation stack location principal).principalIdentifier
      = principal.roleArn
    ∧ (grantDataLakeLocation stack location principal).s3Resource = location :=
  ⟨rfl, rfl, rfl, rfl⟩

/-- **C4.** For every principal (IAM role, IAM user, or SAML provider with a
mapped name), `grantLfAdminRole` emits a data-lake-settings declaration whose
admin list contains exactly the principal's canonical identifier (role ARN,
user ARN, or SAML provider ARN concatenated with the mapped name) as its single
entry, with mutation type `APPEND` — append-only, never replacing the existing
admin set. -/
theorem grantLfAdminRole_append_single_admin (principal : LfPrincipal) :
    (LfAdminV2.grantLfAdminRole principal).admins
      = [{ dataLakePrincipalIdentifier := canonicalIdentifier principal }]
    ∧ (LfAdminV2.grantLfAdminRole principal).mutationType = "APPEND" := by
  cases principal <;> exact ⟨rfl, rfl⟩

/-- **C5.** For every database name, execution role, removal policy and stack,
`removeIamAllowedPrincipal` declares a custom resource whose `onCreate` call is
LakeFormation `RevokePermissions` with permission set exactly `["ALL"]`,
principal identifier exactly `IAM_ALLOWED_PRINCIPALS`, resource scoped to
exactly the one named database, executed under the supplied execution role. -/
theorem removeIamAllowedPrincipal_revoke_call (stack : Stack) (database : String)
    (execRole : Role) (removalPolicy : RemovalPolicy) :
    let cr := removeIamAllowedPrincipal stack database execRole removalPolicy
    cr.onCreate.service = "LakeFormation"
    ∧ cr.onCreate.action = "RevokePermissions"
    ∧ cr.onCreate.permissions = ["ALL"]
    ∧ cr.onCreate.principalIdentifier = "IAM_ALLOWED_PRINCIPALS"
    ∧ cr.onCreate.resourceDatabaseName = database
    ∧ cr.role = execRole :=
  ⟨rfl, rfl, rfl, rfl, rfl, rfl⟩

/-- **C10.** The two definitions of `grantLfAdminRole` resolve every principal
variant to the same canonical identifier and emit the same single-entry admin
list with the same mutation type `APPEND`; their outputs differ only in the
`parameters` field, which the second sets to `CROSS_ACCOUNT_VERSION = 4` and the
first leaves absent. -/
theorem grantLfAdminRole_versions_agree (principal : LfPrincipal) :
    (LfAdminV1.grantLfAdminRole principal).admins
      = (LfAdminV2.grantLfAdminRole principal).admins
    ∧ (LfAdminV1.grantLfAdminRole principal).admins
      = [{ dataLakePrincipalIdentifier := canonicalIdentifier principal }]
    ∧ (LfAdminV1.grantLfAdminRole principal).mutationType = "APPEND"
    ∧ (LfAdminV2.grantLfAdminRole principal).mutationType = "APPEND"
    ∧ (LfAdminV1.grantLfAdminRole principal).parameters = none
    ∧ (LfAdminV2.grantLfAdminRole principal).parameters
      = some [("CROSS_ACCOUNT_VERSION", 4)] := by
  cases principal <;> exact ⟨rfl, rfl, rfl, rfl, rfl, rfl⟩

/-- **C7.** For every authorizer name and central account identifier, a
successful `authorizerEnvironmentWorkflowSetup` produces exactly one
lambda-invoke grant and exactly one assume-role grant, both issued to the same
IAM role, whose ARN is constructed from the central account identifier and the
well-known role name `authorizerName ++ "Role"`. -/
theorem authorizerEnvironmentWorkflowSetup_wellKnownRole (stack : Stack)
    (authorizerName : String) (grantFunction : IFunctionT) (centralAccount : String)
    (w : AuthorizerEnvironmentWorflow)
    (h : authorizerEnvironmentWorkflowSetup stack authorizerName grantFunction
        (some centralAccount) = .ok w) :
    (w.grants.countP fun g => g.action == "lambda:InvokeFunction") = 1
    ∧ (w.grants.countP fun g => g.action == "sts:AssumeRole") = 1
    ∧ w.lambdaInvokeGrant.grantee = w.assumeRoleGrant.grantee
    ∧ w.assumeRoleGrant.grantee
      = arnFormat stack (some centralAccount) "iam" "role" (authorizerName ++ "Role") := by
  unfold authorizerEnvironmentWorkflowSetup at h
  cases hr : grantFunction.role with
  | none => rw [hr] at h; exact absurd h (by simp)
  | some r =>
    rw [hr] at h
    simp only [Except.ok.injEq] at h
    subst h
    refine ⟨?_, ?_, rfl, rfl⟩ <;>
      simp [AuthorizerEnvironmentWorflow.grants, List.countP, List.countP.go]

/-- Witness for C7 at a concrete stack, function and central account. -/
theorem authorizerEnvironmentWorkflowSetup_wellKnownRole_witness :
    (AuthorizerEnvironmentWorflow.grants
      { lambdaInvokeGrant :=
          { grantee := centralAuthorizerRoleArn ⟨"aws", "eu-west-1", "444455556666"⟩
              "MskAuthorizer" (some "123456789012")
            action := "lambda:InvokeFunction"
            resourceArn := "arn:aws:lambda:eu-west-1:444455556666:function:grant" }
        assumeRoleGrant :=
          { grantee := centralAuthorizerRoleArn ⟨"aws", "eu-west-1", "444455556666"⟩
              "MskAuthorizer" (some "123456789012")
            action := "sts:AssumeRole"
            resourceArn := "arn:aws:iam::444455556666:role/GrantRole" } }).countP
      (fun g => g.action == "lambda:InvokeFunction") = 1 :=
  (authorizerEnvironmentWorkflowSetup_wellKnownRole
    ⟨"aws", "eu-west-1", "444455556666"⟩ "MskAuthorizer"
    ⟨"arn:aws:lambda:eu-west-1:444455556666:function:grant",
      some ⟨"lambda.amazonaws.com", "arn:aws:iam::444455556666:role/GrantRole"⟩⟩
    "123456789012" _ rfl).1

/-- **C8.** If the grant function's role is absent, setup fails fast with the
missing-role error and returns no workflow (hence no grant at all); whenever
setup returns successfully, the returned workflow holds both the invoke grant
on the function and the assume-role grant on the function's role — never one of
the pair without the other. -/
theorem authorizerEnvironmentWorkflowSetup_failFast (stack : Stack)
    (authorizerName : String) (grantFunction : IFunctionT)
    (centralAccount : Option String) :
    (grantFunction.role = none →
      authorizerEnvironmentWorkflowSetup stack authorizerName grantFunction centralAccount
        = .error "grantFunction.role is undefined")
    ∧ ∀ w, authorizerEnvironmentWorkflowSetup stack authorizerName grantFunction centralAccount
        = .ok w →
        w.lambdaInvokeGrant.action = "lambda:InvokeFunction"
        ∧ w.assumeRoleGrant.action = "sts:AssumeRole"
        ∧ w.lambdaInvokeGrant.resourceArn = grantFunction.functionArn
        ∧ ∀ r, grantFunction.role = some r → w.assumeRoleGrant.resourceArn = r.roleArn := by
  constructor
  · intro hnone
    unfold authorizerEnvironmentWorkflowSetup
    rw [hnone]
  · intro w h
    unfold authorizerEnvironmentWorkflowSetup at h
    cases hr : grantFunction.role with
    | none => rw [hr] at h; exact absurd h (by simp)
    | some r =>
      rw [hr] at h
      simp only [Except.ok.injEq] at h
      subst h
      exact ⟨rfl, rfl, rfl, fun r' hr' => by
        injection hr' with hrr
        subst hrr
        rfl⟩

/-- Witness for C8: with a role-less function, setup at a concrete input
returns exactly the missing-role error. -/
theorem authorizerEnvironmentWorkflowSetup_failFast_witness :
    authorizerEnvironmentWorkflowSetup ⟨"aws", "eu-west-1", "444455556666"⟩
      "MskAuthorizer" ⟨"arn:aws:lambda:eu-west-1:444455556666:function:grant", none⟩
      (some "123456789012") = .error "grantFunction.role is undefined" :=
  (authorizerEnvironmentWorkflowSetup_failFast ⟨"aws", "eu-west-1", "444455556666"⟩
    "MskAuthorizer" ⟨"arn:aws:lambda:eu-west-1:444455556666:function:grant", none⟩
    (some "123456789012")).1 rfl

/-- **C9.** For every input value that is not one of the recognized permission
models, resolving the permission model fails with `InvalidPermissionModel`, and
so does location registration driven by that raw value, rather than
proceeding. -/
theorem resolvePermissionModel_invalid (stack : Stack) (id : String)
    (locationBucket : IBucket) (locationKey : String) (raw : String)
    (h : raw ≠ "IAM" ∧ raw ≠ "HYBRID" ∧ raw ≠ "LAKE_FORMATION") :
    resolvePermissionModel raw = .error "InvalidPermissionModel"
    ∧ registerS3LocationRaw stack id locationBucket locationKey raw
      = .error "InvalidPermissionModel" := by
  obtain ⟨h1, h2, h3⟩ := h
  unfold resolvePermissionModel registerS3LocationRaw parsePermissionModel
  simp [h1, h2, h3, Except.map]

/-- Witness for C9: the unrecognized value `GOVERNED` is rejected. -/
theorem resolvePermissionModel_invalid_witness :
    resolvePermissionModel "GOVERNED" = .error "InvalidPermissionModel"
    ∧ registerS3LocationRaw ⟨"aws", "eu-west-1", "444455556666"⟩ "Loc"
        ⟨"arn:aws:s3:::bucket"⟩ "pre" "GOVERNED"
      = .error "InvalidPermissionModel" :=
  resolvePermissionModel_invalid ⟨"aws", "eu-west-1", "444455556666"⟩ "Loc"
    ⟨"arn:aws:s3:::bucket"⟩ "pre" "GOVERNED" (by decide)

end DSF
